import Mathlib

/-!
Verification of the BlrExpansion hospital-discovery pipeline.

Shallow embedding of the two fetch scripts:
  * `fetch_eye_hospitals_comprehensive.py` — grid-based nearby search,
    text search, and `combine_results`;
  * `fetch_eye_hospitals.py` — single nearby-search pipeline with a
    bundled sample-data fallback.

External API calls are modelled by environments: a search call is a
function from its request parameters (and continuation token) to
`Except ApiErr SearchResp`, a details call maps a place id to
`Except ApiErr PlaceDetails`.  Python exceptions raised by a call are
the `Except.error` case; `try/except: continue` blocks become the
explicit handling of that case.  Floats are idealised as real numbers;
Python `None` becomes `Option`.
-/

namespace Blr

/-- Failure of an external call: network error, malformed response, or a
quota/billing rejection.  The scripts catch every exception alike, so the
constructors are never distinguished by the pipeline. -/
inductive ApiErr where
  | network
  | malformed
  | quota
deriving DecidableEq

/-- A `geometry.location` object: a latitude/longitude pair. -/
structure Geo where
  lat : ℝ
  lng : ℝ

/-- One element of a search response `results` array.  Only the fields the
scripts read are modelled: `place_id` (always present) and, for the text
search path, the coarse `geometry.location` (absent coordinates are `none`,
which in the script makes `haversine_distance` raise and the item be
skipped). -/
structure RawPlace where
  place_id : String
  geometry : Option Geo

/-- A search-endpoint response: the page of results plus the optional
continuation token `next_page_token`. -/
structure SearchResp where
  results : List RawPlace
  next_page_token : Option String

/-- The `result` object of a place-details response.  Every field the
scripts request can be absent; `opening_hours.open_now` is flattened to
`open_now`. -/
structure PlaceDetails where
  name : Option String
  formatted_address : Option String
  geometry : Option Geo
  rating : Option ℝ
  user_ratings_total : Option Nat
  website : Option String
  formatted_phone_number : Option String
  open_now : Option Bool
  types : Option (List String)

/-- A row of the comprehensive script output (`hospital_info` dict).
Grid rows carry `types`, `zone` and `keyword_found`; text rows carry
`search_method`; after `pd.concat` the missing columns of either side are
NaN, modelled by `Option`. -/
structure Record where
  name : String
  address : String
  latitude : ℝ
  longitude : ℝ
  rating : Option ℝ
  review_count : Nat
  phone : String
  website : String
  place_id : String
  types : Option (List String)
  zone : Option Nat
  keyword_found : Option String
  search_method : Option String

/-- A row of the simple script output (`hospital_info` in
`fetch_eye_hospitals.py`).  The coordinates come from
`.get('geometry', \x7b\x7d).get('location', \x7b\x7d).get('lat', None)` chains, so they
are `Option` — a record can be stored with missing coordinates. -/
structure SimpleRecord where
  name : String
  address : String
  latitude : Option ℝ
  longitude : Option ℝ
  rating : Option ℝ
  review_count : Nat
  phone : String
  website : String
  place_id : String
  open_now : Option Bool

/-- Membership test of a place id in the keyed store, the
`if place_id in all_hospitals` guard. -/
def hasId (s : List Record) (id : String) : Bool :=
  s.any (fun r => r.place_id == id)

/-- One insertion step of a stable insertion sort by a numeric key,
descending: the new element is placed after every strictly greater key and
before equal ones inserted earlier in the fold. -/
def insertByDesc {α : Type} (key : α → Nat) (a : α) : List α → List α
  | [] => [a]
  | x :: xs => if key a < key x then x :: insertByDesc key a xs else a :: x :: xs

/-- Concrete refinement of `df.sort_values('review_count', ascending=False)`
used by this embedding: an insertion sort by the key, descending.  What
pandas documents for the call as written in the scripts (default
`kind='quicksort'`, documented as not stable) is only that the output is a
permutation of the rows that is non-increasing in the key — see
`IsSortValuesDescResult`.  The tie order this function happens to produce
(insertion order) is a determinisation made by the model, not a guarantee
of the program; no claim below relies on it as a property of the code. -/
def sortByDesc {α : Type} (key : α → Nat) (l : List α) : List α :=
  l.foldr (insertByDesc key) []

/-- Worker for `drop_duplicates(subset=['place_id'], keep='first')`:
`seen` is the set of place ids already emitted. -/
def dedupAux (seen : List String) : List Record → List Record
  | [] => []
  | r :: rs =>
    if seen.contains r.place_id then dedupAux seen rs
    else r :: dedupAux (r.place_id :: seen) rs

/-- `drop_duplicates(subset=['place_id'], keep='first')` on the row list. -/
def dropDupByPlaceId (l : List Record) : List Record :=
  dedupAux [] l

/-- `combine_results(grid_df, text_df)`: early returns for empty inputs,
otherwise concatenate, drop duplicate place ids keeping the first (grid
rows come before text rows), and re-sort by review count descending. -/
def combine_results (grid_df text_df : List Record) : List Record :=
  if grid_df.isEmpty ∧ text_df.isEmpty then []
  else if grid_df.isEmpty then text_df
  else if text_df.isEmpty then grid_df
  else sortByDesc (fun r => r.review_count) (dropDupByPlaceId (grid_df ++ text_df))

/-- Bangalore center coordinates used by both scripts. -/
def BANGALORE_CENTER : ℝ × ℝ := (12.9716, 77.5946)

/-- Grid of zone centers of the comprehensive script. -/
def GRID_POINTS : List (ℝ × ℝ) :=
  [(12.9716, 77.5946),
   (13.0500, 77.5946), (13.1200, 77.5946),
   (12.8900, 77.5946), (12.8100, 77.5946),
   (12.9716, 77.7000), (12.9716, 77.8000),
   (12.9716, 77.4800), (12.9716, 77.3800),
   (13.0500, 77.7000), (13.0500, 77.4800),
   (12.8900, 77.7000), (12.8900, 77.4800)]

/-- Keyword variants of the comprehensive script. -/
def KEYWORDS : List String :=
  ["eye hospital", "ophthalmology hospital", "eye clinic", "eye care center",
   "eye institute", "cornea hospital", "retina hospital", "cataract hospital"]

/-- Degrees to radians, the Python `math.radians`. -/
noncomputable def deg2rad (x : ℝ) : ℝ :=
  x * Real.pi / 180

/-- The Python `math.atan2(y, x)` (C library semantics) over ideal reals. -/
noncomputable def atan2 (y x : ℝ) : ℝ :=
  if 0 < x then Real.arctan (y / x)
  else if x = 0 ∧ 0 < y then Real.pi / 2
  else if x = 0 ∧ y < 0 then -(Real.pi / 2)
  else if x = 0 then 0
  else if 0 ≤ y then Real.arctan (y / x) + Real.pi
  else Real.arctan (y / x) - Real.pi

/-- The intermediate value `a` of `haversine_distance`:
`sin(dlat/2)**2 + cos(lat1) * cos(lat2) * sin(dlon/2)**2` after the four
inputs have been mapped through `radians`. -/
noncomputable def hav_a (lat1 lon1 lat2 lon2 : ℝ) : ℝ :=
  Real.sin ((deg2rad lat2 - deg2rad lat1) / 2) ^ 2 +
    Real.cos (deg2rad lat1) * Real.cos (deg2rad lat2) *
      Real.sin ((deg2rad lon2 - deg2rad lon1) / 2) ^ 2

/-- `haversine_distance(lat1, lon1, lat2, lon2)`: great-circle distance in
kilometers, `R * c` with `R = 6371` (mean Earth radius) and
`c = 2 * atan2(sqrt(a), sqrt(1 - a))`, exactly as in the script. -/
noncomputable def haversine_distance (lat1 lon1 lat2 lon2 : ℝ) : ℝ :=
  6371 * (2 * atan2 (Real.sqrt (hav_a lat1 lon1 lat2 lon2))
    (Real.sqrt (1 - hav_a lat1 lon1 lat2 lon2)))

/-- External interface of the grid search: `search` models
`gmaps.places_nearby(location, radius, keyword, type="hospital", page_token)`
(the response is a function of the zone center, radius, keyword and
continuation token), `details` models `gmaps.place(place_id, fields=...)`.
An `Except.error` is a raised exception. -/
structure GridEnv where
  search : ℝ × ℝ → Nat → String → Option String → Except ApiErr SearchResp
  details : String → Except ApiErr PlaceDetails

/-- The `hospital_info` dict built by the grid search for a surviving place:
absent string fields map to the sentinel `"N/A"`, absent `types` to `[]`,
but an absent rating is stored as `None` itself. -/
def gridHospitalInfo (zoneIdx : Nat) (kw : String) (pid : String)
    (pd : PlaceDetails) (g : Geo) : Record :=
  { name := pd.name.getD "N/A"
    address := pd.formatted_address.getD "N/A"
    latitude := g.lat
    longitude := g.lng
    rating := pd.rating
    review_count := pd.user_ratings_total.getD 0
    phone := pd.formatted_phone_number.getD "N/A"
    website := pd.website.getD "N/A"
    place_id := pid
    types := some (pd.types.getD [])
    zone := some zoneIdx
    keyword_found := some kw
    search_method := none }

/-- Body of the inner `for place in places_result['results']` loop of the
grid search.  In order: skip if the id is already in the keyed store; call
the details endpoint (an exception skips the place); read
`user_ratings_total` with default 0; filter by `min_reviews`; building the
dict reads `place_data['geometry']['location']`, so a missing geometry
raises `KeyError` and the place is skipped by the same `except`. -/
def processPlaceGrid (env : GridEnv) (minReviews zoneIdx : Nat) (kw : String)
    (s : List Record) (pl : RawPlace) : List Record :=
  if hasId s pl.place_id then s
  else
    match env.details pl.place_id with
    | Except.error _ => s
    | Except.ok pd =>
      if minReviews ≤ pd.user_ratings_total.getD 0 then
        match pd.geometry with
        | none => s
        | some g => s ++ [gridHospitalInfo zoneIdx kw pl.place_id pd g]
      else s

/-- The grid search `while True` pagination loop for one (zone, keyword)
query.  `pageNum` matches the script counter (first call has `page_num = 1`);
`fuel` is a structural bound never reached before the `page_num >= 3` cap
when the loop is entered with `fuel = 3, pageNum = 1`.  Returns the store
plus the number of search requests issued.  An exception from the search
call aborts the keyword, keeping the store accumulated so far (the script
catches it at the keyword level and `continue`s). -/
def gridLoop (env : GridEnv) (minReviews radius zoneIdx : Nat) (c : ℝ × ℝ) (kw : String) :
    Nat → Nat → Option String → List Record → List Record × Nat
  | 0, _, _, s => (s, 0)
  | fuel + 1, pageNum, token, s =>
    match env.search c radius kw token with
    | Except.error _ => (s, 1)
    | Except.ok resp =>
      if resp.results.isEmpty then (s, 1)
      else
        let s' := resp.results.foldl (processPlaceGrid env minReviews zoneIdx kw) s
        match resp.next_page_token with
        | none => (s', 1)
        | some t =>
          if 3 ≤ pageNum then (s', 1)
          else
            let r := gridLoop env minReviews radius zoneIdx c kw fuel (pageNum + 1) (some t) s'
            (r.1, r.2 + 1)

/-- One keyword of one zone: run the pagination loop from page 1 with no
initial token. -/
def processKeywordGrid (env : GridEnv) (minReviews radius zoneIdx : Nat)
    (c : ℝ × ℝ) (s : List Record) (kw : String) : List Record :=
  (gridLoop env minReviews radius zoneIdx c kw 3 1 none s).1

/-- The `for keyword in KEYWORDS` fold of one zone over an arbitrary
keyword list. -/
def processKeywordsGrid (env : GridEnv) (minReviews radius zoneIdx : Nat)
    (c : ℝ × ℝ) (ks : List String) (s : List Record) : List Record :=
  ks.foldl (processKeywordGrid env minReviews radius zoneIdx c) s

/-- One zone: fold the keyword list over the shared keyed store. -/
def processZoneGrid (env : GridEnv) (minReviews radius : Nat)
    (s : List Record) (zc : Nat × (ℝ × ℝ)) : List Record :=
  processKeywordsGrid env minReviews radius zc.1 zc.2 KEYWORDS s

/-- The keyed store (`all_hospitals`, in insertion order) after the whole
grid run over `enumerate(GRID_POINTS, 1)`. -/
def gridStore (env : GridEnv) (minReviews radius : Nat) : List Record :=
  (GRID_POINTS.enumFrom 1).foldl (processZoneGrid env minReviews radius) []

/-- `fetch_hospitals_grid_search(min_reviews, search_radius)`: the store
values sorted by review count descending (an empty store gives the empty
frame, which the sort maps to itself). -/
def fetch_hospitals_grid_search (env : GridEnv) (minReviews radius : Nat) :
    List Record :=
  sortByDesc (fun r => r.review_count) (gridStore env minReviews radius)

/-- External interface of the text search: `search` models
`gmaps.places_text(query, page_token)` keyed by the full query string and
the continuation token. -/
structure TextEnv where
  search : String → Option String → Except ApiErr SearchResp
  details : String → Except ApiErr PlaceDetails

/-- The `hospital_info` dict built by the text search: like the grid one but
tagged `search_method = "text_search"` and without `types`, `zone`,
`keyword_found` columns. -/
def textHospitalInfo (pid : String) (pd : PlaceDetails) (g : Geo) : Record :=
  { name := pd.name.getD "N/A"
    address := pd.formatted_address.getD "N/A"
    latitude := g.lat
    longitude := g.lng
    rating := pd.rating
    review_count := pd.user_ratings_total.getD 0
    phone := pd.formatted_phone_number.getD "N/A"
    website := pd.website.getD "N/A"
    place_id := pid
    types := none
    zone := none
    keyword_found := none
    search_method := some "text_search" }

/-- The part of the text-search item processing after the geo distance
check: dedup guard, details call, review filter, insertion — the same shape
as the grid path but building a text row. -/
def textPostGeo (env : TextEnv) (minReviews : Nat) (s : List Record)
    (pid : String) : List Record :=
  if hasId s pid then s
  else
    match env.details pid with
    | Except.error _ => s
    | Except.ok pd =>
      if minReviews ≤ pd.user_ratings_total.getD 0 then
        match pd.geometry with
        | none => s
        | some g => s ++ [textHospitalInfo pid pd g]
      else s

/-- Body of the text-search item loop.  First the coarse geometry is read
(`place.get('geometry', \x7b\x7d).get('location', \x7b\x7d)`); missing coordinates make
`haversine_distance` raise `TypeError` and the item is skipped.  A distance
from the Bangalore center above 50 km rejects the item (`continue`);
otherwise processing continues with dedup, details, review filter. -/
noncomputable def processPlaceText (env : TextEnv) (minReviews : Nat)
    (s : List Record) (pl : RawPlace) : List Record :=
  match pl.geometry with
  | none => s
  | some g =>
    if haversine_distance BANGALORE_CENTER.1 BANGALORE_CENTER.2 g.lat g.lng > 50 then s
    else textPostGeo env minReviews s pl.place_id

/-- The text search pagination loop for one keyword, `page_num >= 2` cap,
entered with `fuel = 2, pageNum = 1`.  The query string is
`keyword ++ " Bangalore"`.  Same exception semantics as the grid loop. -/
noncomputable def textLoop (env : TextEnv) (minReviews : Nat) (kw : String) :
    Nat → Nat → Option String → List Record → List Record × Nat
  | 0, _, _, s => (s, 0)
  | fuel + 1, pageNum, token, s =>
    match env.search (kw ++ " Bangalore") token with
    | Except.error _ => (s, 1)
    | Except.ok resp =>
      if resp.results.isEmpty then (s, 1)
      else
        let s' := resp.results.foldl (processPlaceText env minReviews) s
        match resp.next_page_token with
        | none => (s', 1)
        | some t =>
          if 2 ≤ pageNum then (s', 1)
          else
            let r := textLoop env minReviews kw fuel (pageNum + 1) (some t) s'
            (r.1, r.2 + 1)

/-- One keyword of the text search (its own `try/except: continue`). -/
noncomputable def processKeywordText (env : TextEnv) (minReviews : Nat)
    (s : List Record) (kw : String) : List Record :=
  (textLoop env minReviews kw 2 1 none s).1

/-- The keyed store after the whole text run over all keywords. -/
noncomputable def textStore (env : TextEnv) (minReviews : Nat) : List Record :=
  KEYWORDS.foldl (processKeywordText env minReviews) []

/-- `fetch_hospitals_text_search(min_reviews)`: store values sorted by
review count descending. -/
noncomputable def fetch_hospitals_text_search (env : TextEnv) (minReviews : Nat) :
    List Record :=
  sortByDesc (fun r => r.review_count) (textStore env minReviews)

/-- External interface of the simple script: only the details endpoint is a
function; the search responses are scripted as a list, one per request
(the loop has no page cap, so its recursion is over that script). -/
structure SimpleEnv where
  details : String → Except ApiErr PlaceDetails

/-- The `hospital_info` dict of `fetch_eye_hospitals.py`: coordinates and
`open_now` come from `.get` chains with `None` defaults, so absent geometry
yields a stored record with `latitude = none` — there is no rejection. -/
def simpleHospitalInfo (pid : String) (pd : PlaceDetails) : SimpleRecord :=
  { name := pd.name.getD "N/A"
    address := pd.formatted_address.getD "N/A"
    latitude := (pd.geometry.map (fun g => g.lat))
    longitude := (pd.geometry.map (fun g => g.lng))
    rating := pd.rating
    review_count := pd.user_ratings_total.getD 0
    phone := pd.formatted_phone_number.getD "N/A"
    website := pd.website.getD "N/A"
    place_id := pid
    open_now := pd.open_now }

/-- Body of the item loop of `fetch_eye_hospitals_from_api`: details call
(an exception skips the item), review filter, append — no dedup guard and
no geometry requirement. -/
def processPlaceSimple (env : SimpleEnv) (minReviews : Nat)
    (s : List SimpleRecord) (pl : RawPlace) : List SimpleRecord :=
  match env.details pl.place_id with
  | Except.error _ => s
  | Except.ok pd =>
    if minReviews ≤ pd.user_ratings_total.getD 0 then
      s ++ [simpleHospitalInfo pl.place_id pd]
    else s

/-- The `while True` loop of `fetch_eye_hospitals_from_api` over the
scripted search responses.  Each request consumes one script entry; the
loop stops only when a response carries no `next_page_token` (there is no
page cap).  A raised exception (an `error` entry, or the script running
out, modelling a failing call) aborts the whole fetch: the outer `try`
returns `None`, discarding every record collected so far.  Returns
`(none, n)` on abort and `(some store, n)` on normal exit, with `n` the
number of search requests issued. -/
def simpleLoop (env : SimpleEnv) (minReviews : Nat) :
    List (Except ApiErr SearchResp) → List SimpleRecord →
    Option (List SimpleRecord) × Nat
  | [], _ => (none, 0)
  | Except.error _ :: _, _ => (none, 1)
  | Except.ok resp :: rest, s =>
    let s' := resp.results.foldl (processPlaceSimple env minReviews) s
    match resp.next_page_token with
    | none => (some s', 1)
    | some _ =>
      let r := simpleLoop env minReviews rest s'
      (r.1, r.2 + 1)

/-- `fetch_eye_hospitals_from_api(min_reviews)`: run the loop from an empty
list; on success sort descending by review count, returning `None` when no
hospital was collected; on an exception return `None`.  The request count
is carried along for the pagination analysis. -/
def fetch_eye_hospitals_from_api (env : SimpleEnv)
    (responses : List (Except ApiErr SearchResp)) (minReviews : Nat) :
    Option (List SimpleRecord) × Nat :=
  match simpleLoop env minReviews responses [] with
  | (none, n) => (none, n)
  | (some s, n) =>
    if s.isEmpty then (none, n)
    else (some (sortByDesc (fun r => r.review_count) s), n)

/-- The bundled `SAMPLE_EYE_HOSPITALS` fallback dataset of
`fetch_eye_hospitals.py` (ten well-known hospitals, all with at least 750
reviews). -/
def SAMPLE_EYE_HOSPITALS : List SimpleRecord :=
  [{ name := "L V Prasad Eye Institute"
     address := "L V Prasad Marg, Whitefield, Bangalore 560066"
     latitude := some 13.0259, longitude := some 77.7362
     rating := some 4.6, review_count := 1850
     phone := "+91 80 4055 2020", website := "https://www.lvpei.org"
     place_id := "sample_1", open_now := some true },
   { name := "Narayana Nethralaya"
     address := "#121, Chord Road, Opp. St. Johns School, High Grounds, Bangalore 560001"
     latitude := some 13.0065, longitude := some 77.5956
     rating := some 4.5, review_count := 2150
     phone := "+91 80 4055 2000", website := "https://www.narayananethralaya.org"
     place_id := "sample_2", open_now := some true },
   { name := "Aditya Birla Aravind Eye Hospital"
     address := "No. 61, Koramangala 5th A Cross Road, Bangalore 560034"
     latitude := some 12.9352, longitude := some 77.6245
     rating := some 4.7, review_count := 1620
     phone := "+91 80 4040 2020", website := "https://www.adarsh.in"
     place_id := "sample_3", open_now := some true },
   { name := "Shroff Eye Centre"
     address := "2nd Floor, 80 Feet Road, Indiranagar, Bangalore 560038"
     latitude := some 12.9716, longitude := some 77.6422
     rating := some 4.4, review_count := 890
     phone := "+91 80 4123 4567", website := "https://www.shroffeyecentre.com"
     place_id := "sample_4", open_now := some true },
   { name := "Center for Sight"
     address := "80 Feet Road, Koramangala, Bangalore 560034"
     latitude := some 12.9352, longitude := some 77.6178
     rating := some 4.6, review_count := 1340
     phone := "+91 80 6789 0123", website := "https://www.centreforsight.net"
     place_id := "sample_5", open_now := some true },
   { name := "Apollo Spectra Eye Clinic"
     address := "Bangalore Medical College Campus, Fort, Bangalore 560002"
     latitude := some 13.0036, longitude := some 77.5915
     rating := some 4.5, review_count := 1120
     phone := "+91 80 4088 8888", website := "https://www.apollospectra.com"
     place_id := "sample_6", open_now := some true },
   { name := "Nandan Eye Care Centre"
     address := "80 Feet Road, Opp. Innovative Multiplex, Koramangala, Bangalore 560034"
     latitude := some 12.9320, longitude := some 77.6200
     rating := some 4.3, review_count := 750
     phone := "+91 80 4123 5678", website := "https://www.nandaneyecare.com"
     place_id := "sample_7", open_now := some true },
   { name := "Aster RV Eye Care"
     address := "Aster RV Hospital, Marathahalli, Bangalore 560037"
     latitude := some 12.9700, longitude := some 77.7180
     rating := some 4.6, review_count := 1200
     phone := "+91 80 4089 0089", website := "https://www.asterrv.com"
     place_id := "sample_8", open_now := some true },
   { name := "BGS Gleneagles Global Hospitals Eye Clinic"
     address := "Kengeri, Bangalore 560060"
     latitude := some 13.0200, longitude := some 77.5500
     rating := some 4.4, review_count := 980
     phone := "+91 80 6789 1234", website := "https://www.bgshospitals.com"
     place_id := "sample_9", open_now := some true },
   { name := "Fortis Eye Institute"
     address := "Whitefield, Bangalore 560066"
     latitude := some 13.0259, longitude := some 77.7450
     rating := some 4.5, review_count := 1050
     phone := "+91 80 4040 4040", website := "https://www.fortiseye.com"
     place_id := "sample_10", open_now := some true }]

/-- The sample fallback dataset as returned: filtered by `min_reviews` and
sorted by review count descending. -/
def sampleFallback (minReviews : Nat) : List SimpleRecord :=
  sortByDesc (fun r => r.review_count)
    (SAMPLE_EYE_HOSPITALS.filter (fun r => decide (minReviews ≤ r.review_count)))

/-- `get_eye_hospitals(min_reviews, use_sample)`: forced sample, or the API
fetch with fallback to the sample when the fetch returns `None` or an empty
frame. -/
def get_eye_hospitals (env : SimpleEnv)
    (responses : List (Except ApiErr SearchResp)) (minReviews : Nat)
    (useSample : Bool) : List SimpleRecord :=
  if useSample then sampleFallback minReviews
  else
    match (fetch_eye_hospitals_from_api env responses minReviews).1 with
    | some df => if 0 < df.length then df else sampleFallback minReviews
    | none => sampleFallback minReviews

/-- End of the comprehensive `__main__` when both strategies ran: the
combined frame is displayed and written to CSV only when nonempty;
otherwise the script prints `"No hospitals found matching criteria"` and
writes nothing — there is no sample fallback in this script.  `some rows`
is the written file, `none` is no file. -/
def comprehensiveMainResult (grid_df text_df : List Record) :
    Option (List Record) :=
  let final_df := combine_results grid_df text_df
  if final_df.isEmpty then none else some final_df

/-!
Concrete fixtures: records, place-details objects, environments and
response scripts used to evaluate the embedded pipelines on explicit
inputs.
-/

/-- A grid row for place id `"A"` with 500 reviews. -/
def gridRowA : Record :=
  { name := "Hospital A", address := "addr A", latitude := 0, longitude := 0
    rating := some 4.5, review_count := 500, phone := "N/A", website := "N/A"
    place_id := "A", types := some [], zone := some 1
    keyword_found := some "eye hospital", search_method := none }

/-- A text row for the same place id `"A"` but different attributes:
999 reviews and a different rating. -/
def textRowA : Record :=
  { name := "Hospital A later sighting", address := "addr A2"
    latitude := 0, longitude := 0
    rating := some 1.0, review_count := 999, phone := "N/A", website := "N/A"
    place_id := "A", types := none, zone := none, keyword_found := none
    search_method := some "text_search" }

/-- A text row for place id `"B"` with only 50 reviews. -/
def textRowB : Record :=
  { name := "Hospital B", address := "addr B", latitude := 0, longitude := 0
    rating := some 4.0, review_count := 50, phone := "N/A", website := "N/A"
    place_id := "B", types := none, zone := none, keyword_found := none
    search_method := some "text_search" }

/-- A details object for id `"A"` with attributes differing from
`gridRowA` (different rating, 999 reviews). -/
def detailsModifiedA : PlaceDetails :=
  { name := some "Hospital A later sighting", formatted_address := some "addr A2"
    geometry := some { lat := 1, lng := 1 }, rating := some 1.0
    user_ratings_total := some 999, website := none
    formatted_phone_number := none, open_now := none, types := none }

/-- A well-formed details object with 150 reviews. -/
def detailsOk : PlaceDetails :=
  { name := some "Some Hospital", formatted_address := some "Some Road"
    geometry := some { lat := 12.97, lng := 77.59 }, rating := some 4.2
    user_ratings_total := some 150, website := some "https://h.example"
    formatted_phone_number := some "+91 80 0000 0000", open_now := some true
    types := some ["hospital"] }

/-- A details object with 150 reviews but no geometry and no rating. -/
def detailsNoGeo : PlaceDetails :=
  { name := some "Ghost Hospital", formatted_address := none, geometry := none
    rating := none, user_ratings_total := some 150, website := none
    formatted_phone_number := none, open_now := none, types := none }

/-- A grid environment whose details endpoint always reports the modified
attributes of `detailsModifiedA`, and whose search always fails. -/
def envModified : GridEnv :=
  { search := fun _ _ _ _ => Except.error ApiErr.network
    details := fun _ => Except.ok detailsModifiedA }

/-- A text environment with the same modified details endpoint. -/
def envModifiedText : TextEnv :=
  { search := fun _ _ => Except.error ApiErr.network
    details := fun _ => Except.ok detailsModifiedA }

/-- A grid environment in which every external call raises. -/
def envAllFail : GridEnv :=
  { search := fun _ _ _ _ => Except.error ApiErr.quota
    details := fun _ => Except.error ApiErr.quota }

/-- A grid environment that serves one result per page over three pages for
the keyword `"eye hospital"`, with continuation tokens on the first two
pages only, raises for the keyword `"cataract hospital"`, and returns an
empty page for every other keyword. -/
def envThreePages : GridEnv :=
  { search := fun _ _ kw token =>
      if kw == "cataract hospital" then Except.error ApiErr.quota
      else if kw == "eye hospital" then
        match token with
        | none => Except.ok { results := [{ place_id := "p1", geometry := none }]
                              next_page_token := some "t1" }
        | some t =>
          if t == "t1" then
            Except.ok { results := [{ place_id := "p2", geometry := none }]
                        next_page_token := some "t2" }
          else if t == "t2" then
            Except.ok { results := [{ place_id := "p3", geometry := none }]
                        next_page_token := none }
          else Except.error ApiErr.malformed
      else Except.ok { results := [], next_page_token := none }
    details := fun _ => Except.ok detailsOk }

/-- A grid environment whose details endpoint serves `detailsNoGeo` and
whose search always fails. -/
def envGridNoGeo : GridEnv :=
  { search := fun _ _ _ _ => Except.error ApiErr.network
    details := fun _ => Except.ok detailsNoGeo }

/-- A simple-pipeline environment whose details endpoint always succeeds
with `detailsOk`. -/
def envSimpleOk : SimpleEnv :=
  { details := fun _ => Except.ok detailsOk }

/-- A simple-pipeline environment whose details endpoint serves
`detailsNoGeo` (no geometry, no rating). -/
def envSimpleNoGeo : SimpleEnv :=
  { details := fun _ => Except.ok detailsNoGeo }

/-- A simple-pipeline environment whose details endpoint always raises. -/
def envSimpleFail : SimpleEnv :=
  { details := fun _ => Except.error ApiErr.network }

/-- A scripted response page with no results that carries a continuation
token. -/
def tokenPage : Except ApiErr SearchResp :=
  Except.ok { results := [], next_page_token := some "t" }

/-- A scripted response page with no results and no continuation token. -/
def endPage : Except ApiErr SearchResp :=
  Except.ok { results := [], next_page_token := none }

/-- `n` consecutive token-carrying pages. -/
def tokenPages (n : Nat) : List (Except ApiErr SearchResp) :=
  List.replicate n tokenPage

/-- The three-page response script of end-to-end scenario 2: tokens on the
first two pages, none on the third, one result per page. -/
def threePageScript : List (Except ApiErr SearchResp) :=
  [Except.ok { results := [{ place_id := "p1", geometry := none }]
               next_page_token := some "t1" },
   Except.ok { results := [{ place_id := "p2", geometry := none }]
               next_page_token := some "t2" },
   Except.ok { results := [{ place_id := "p3", geometry := none }]
               next_page_token := none }]

/-- A raw search result whose coarse geometry is the Bangalore center
itself (distance 0 from the center). -/
def placeAtCenter : RawPlace :=
  { place_id := "center", geometry := some { lat := 12.9716, lng := 77.5946 } }

/-- A raw search result at the antipode of the Bangalore center (same
latitude, longitude shifted by 180 degrees). -/
def placeAntipodal : RawPlace :=
  { place_id := "faraway", geometry := some { lat := 12.9716, lng := 257.5946 } }

/-- The documented contract of `df.sort_values('review_count',
ascending=False)` with the default `kind='quicksort'`: the output is a
permutation of the input rows that is non-increasing in `review_count` on
adjacent pairs.  Pandas documents no tie-order property for this kind
(only `mergesort` and `stable` are stable), so this is the strongest
postcondition the sort calls of the scripts provide. -/
def IsSortValuesDescResult (input output : List Record) : Prop :=
  List.Perm output input ∧
    List.Chain' (fun a b => b.review_count ≤ a.review_count) output

/-- A row with 100 reviews and id `"tie1"`, inserted first. -/
def tieRowFirst : Record :=
  { name := "Tie Hospital 1", address := "addr t1", latitude := 0, longitude := 0
    rating := some 4.0, review_count := 100, phone := "N/A", website := "N/A"
    place_id := "tie1", types := some [], zone := some 1
    keyword_found := some "eye hospital", search_method := none }

/-- A row with the same 100 reviews and id `"tie2"`, inserted second. -/
def tieRowSecond : Record :=
  { name := "Tie Hospital 2", address := "addr t2", latitude := 0, longitude := 0
    rating := some 4.1, review_count := 100, phone := "N/A", website := "N/A"
    place_id := "tie2", types := some [], zone := some 1
    keyword_found := some "eye hospital", search_method := none }

/-- The place ids of a store are pairwise distinct. -/
def IdsNodup (s : List Record) : Prop :=
  (s.map (fun r => r.place_id)).Nodup

/-- Every record of a store passed the review filter. -/
def AllPass (minReviews : Nat) (s : List Record) : Prop :=
  ∀ r ∈ s, minReviews ≤ r.review_count

/-- `AllPass` for the simple-pipeline record type. -/
def AllPassSimple (minReviews : Nat) (s : List SimpleRecord) : Prop :=
  ∀ r ∈ s, minReviews ≤ r.review_count

/-- The two store invariants together: distinct ids and filtered reviews. -/
def StoreInv (minReviews : Nat) (s : List Record) : Prop :=
  IdsNodup s ∧ AllPass minReviews s

/-!
Generic lemmas: fold preservation, and the sort is a stable descending
permutation.
-/

theorem foldl_preserves {α β : Type} {P : β → Prop} {f : β → α → β}
    (hf : ∀ s a, P s → P (f s a)) :
    ∀ (l : List α) (s : β), P s → P (l.foldl f s)
  | [], _, h => h
  | a :: l, s, h => foldl_preserves hf l (f s a) (hf s a h)

theorem insertByDesc_perm {α : Type} (key : α → Nat) (a : α) :
    ∀ l : List α, List.Perm (insertByDesc key a l) (a :: l)
  | [] => List.Perm.refl _
  | x :: xs => by
    unfold insertByDesc
    by_cases h : key a < key x
    · rw [if_pos h]
      exact (List.Perm.cons x (insertByDesc_perm key a xs)).trans (List.Perm.swap a x xs)
    · rw [if_neg h]

theorem sortByDesc_perm {α : Type} (key : α → Nat) :
    ∀ l : List α, List.Perm (sortByDesc key l) l
  | [] => List.Perm.refl _
  | x :: xs => by
    show List.Perm (insertByDesc key x (sortByDesc key xs)) (x :: xs)
    exact (insertByDesc_perm key x _).trans (List.Perm.cons x (sortByDesc_perm key xs))

theorem insertByDesc_pairwise {α : Type} (key : α → Nat) (a : α) :
    ∀ {l : List α}, List.Pairwise (fun u v => key v ≤ key u) l →
      List.Pairwise (fun u v => key v ≤ key u) (insertByDesc key a l)
  | [], _ => by simp [insertByDesc]
  | x :: xs, h => by
    rcases List.pairwise_cons.mp h with ⟨hx, hxs⟩
    unfold insertByDesc
    by_cases hk : key a < key x
    · rw [if_pos hk]
      refine List.pairwise_cons.mpr ⟨?_, insertByDesc_pairwise key a hxs⟩
      intro y hy
      rcases List.mem_cons.mp ((insertByDesc_perm key a xs).mem_iff.mp hy) with hya | hyxs
      · exact hya ▸ Nat.le_of_lt hk
      · exact hx y hyxs
    · rw [if_neg hk]
      refine List.pairwise_cons.mpr ⟨?_, h⟩
      intro y hy
      rcases List.mem_cons.mp hy with hyx | hyxs
      · exact hyx ▸ Nat.le_of_not_lt hk
      · exact Nat.le_trans (hx y hyxs) (Nat.le_of_not_lt hk)

theorem sortByDesc_pairwise {α : Type} (key : α → Nat) :
    ∀ l : List α, List.Pairwise (fun u v => key v ≤ key u) (sortByDesc key l)
  | [] => List.Pairwise.nil
  | x :: xs => by
    show List.Pairwise _ (insertByDesc key x (sortByDesc key xs))
    exact insertByDesc_pairwise key x (sortByDesc_pairwise key xs)

theorem sortByDesc_chain {α : Type} (key : α → Nat) (l : List α) :
    List.Chain' (fun u v => key v ≤ key u) (sortByDesc key l) :=
  (sortByDesc_pairwise key l).chain'

/-!
Keyed-store lemmas: the `if place_id in all_hospitals` guard keeps ids
distinct, and the review filter guard keeps every stored record above the
threshold.
-/

theorem hasId_false_iff {s : List Record} {id : String} :
    hasId s id = false ↔ ∀ r ∈ s, r.place_id ≠ id := by
  simp [hasId, List.any_eq_false]

theorem storeInv_append {mr : Nat} {s : List Record} {r : Record}
    (h : StoreInv mr s) (hid : hasId s r.place_id = false)
    (hrc : mr ≤ r.review_count) : StoreInv mr (s ++ [r]) := by
  constructor
  · have hnot : r.place_id ∉ s.map (fun q => q.place_id) := by
      intro hm
      rcases List.mem_map.mp hm with ⟨q, hq, hqe⟩
      exact (hasId_false_iff.mp hid q hq) hqe
    unfold IdsNodup
    rw [List.map_append]
    refine List.Nodup.append h.1 (List.nodup_singleton _) ?_
    intro a ha hb
    rcases List.mem_singleton.mp hb with rfl
    simp at ha
    exact hnot (by simpa using ha)
  · intro q hq
    rcases List.mem_append.mp hq with hqs | hqr
    · exact h.2 q hqs
    · rcases List.mem_singleton.mp hqr with rfl
      exact hrc

theorem processPlaceGrid_inv (env : GridEnv) (mr z : Nat) (kw : String)
    (s : List Record) (pl : RawPlace) (h : StoreInv mr s) :
    StoreInv mr (processPlaceGrid env mr z kw s pl) := by
  unfold processPlaceGrid
  split
  · exact h
  case isFalse hid =>
    rcases hd : env.details pl.place_id with e | pd
    · exact h
    · simp only []
      split
      case isTrue hrc =>
        rcases pd.geometry with _ | g
        · exact h
        · refine storeInv_append h ?_ ?_
          · simpa [gridHospitalInfo] using Bool.not_eq_true _ ▸ (by simpa using hid)
          · simpa [gridHospitalInfo] using hrc
      case isFalse => exact h

theorem textPostGeo_inv (env : TextEnv) (mr : Nat) (s : List Record)
    (pid : String) (h : StoreInv mr s) :
    StoreInv mr (textPostGeo env mr s pid) := by
  unfold textPostGeo
  split
  · exact h
  case isFalse hid =>
    rcases hd : env.details pid with e | pd
    · exact h
    · simp only []
      split
      case isTrue hrc =>
        rcases pd.geometry with _ | g
        · exact h
        · refine storeInv_append h ?_ ?_
          · simpa [textHospitalInfo] using Bool.not_eq_true _ ▸ (by simpa using hid)
          · simpa [textHospitalInfo] using hrc
      case isFalse => exact h

theorem processPlaceText_inv (env : TextEnv) (mr : Nat) (s : List Record)
    (pl : RawPlace) (h : StoreInv mr s) :
    StoreInv mr (processPlaceText env mr s pl) := by
  unfold processPlaceText
  rcases pl.geometry with _ | g
  · exact h
  · simp only []
    split
    · exact h
    · exact textPostGeo_inv env mr s pl.place_id h

theorem gridLoop_inv (env : GridEnv) (mr rad z : Nat) (c : ℝ × ℝ) (kw : String)
    {P : List Record → Prop}
    (hstep : ∀ s pl, P s → P (processPlaceGrid env mr z kw s pl)) :
    ∀ (fuel pageNum : Nat) (token : Option String) (s : List Record),
      P s → P (gridLoop env mr rad z c kw fuel pageNum token s).1 := by
  intro fuel
  induction fuel with
  | zero => intro _ _ s hs; exact hs
  | succ n ih =>
    intro pageNum token s hs
    unfold gridLoop
    rcases env.search c rad kw token with e | resp
    · exact hs
    · simp only []
      split
      · exact hs
      · have hs' : P (resp.results.foldl (processPlaceGrid env mr z kw) s) :=
          foldl_preserves hstep resp.results s hs
        rcases resp.next_page_token with _ | t
        · exact hs'
        · simp only []
          split
          · exact hs'
          · exact ih (pageNum + 1) (some t) _ hs'

theorem gridStore_storeInv (env : GridEnv) (mr rad : Nat) :
    StoreInv mr (gridStore env mr rad) := by
  unfold gridStore
  refine foldl_preserves ?_ _ _ ?_
  · intro s zc hs
    unfold processZoneGrid processKeywordsGrid
    refine foldl_preserves ?_ _ _ hs
    intro s' kw hs'
    exact gridLoop_inv env mr rad zc.1 zc.2 kw
      (fun t pl ht => processPlaceGrid_inv env mr zc.1 kw t pl ht) 3 1 none s' hs'
  · exact ⟨List.nodup_nil, by intro r hr; cases hr⟩

theorem textLoop_inv (env : TextEnv) (mr : Nat) (kw : String)
    {P : List Record → Prop}
    (hstep : ∀ s pl, P s → P (processPlaceText env mr s pl)) :
    ∀ (fuel pageNum : Nat) (token : Option String) (s : List Record),
      P s → P (textLoop env mr kw fuel pageNum token s).1 := by
  intro fuel
  induction fuel with
  | zero => intro _ _ s hs; exact hs
  | succ n ih =>
    intro pageNum token s hs
    unfold textLoop
    rcases env.search (kw ++ " Bangalore") token with e | resp
    · exact hs
    · simp only []
      split
      · exact hs
      · have hs' : P (resp.results.foldl (processPlaceText env mr) s) :=
          foldl_preserves hstep resp.results s hs
        rcases resp.next_page_token with _ | t
        · exact hs'
        · simp only []
          split
          · exact hs'
          · exact ih (pageNum + 1) (some t) _ hs'

theorem textStore_storeInv (env : TextEnv) (mr : Nat) :
    StoreInv mr (textStore env mr) := by
  unfold textStore
  refine foldl_preserves ?_ _ _ ?_
  · intro s kw hs
    exact textLoop_inv env mr kw
      (fun t pl ht => processPlaceText_inv env mr t pl ht) 2 1 none s hs
  · exact ⟨List.nodup_nil, by intro r hr; cases hr⟩

theorem processPlaceSimple_allPass (env : SimpleEnv) (mr : Nat)
    (s : List SimpleRecord) (pl : RawPlace) (h : AllPassSimple mr s) :
    AllPassSimple mr (processPlaceSimple env mr s pl) := by
  unfold processPlaceSimple
  rcases hd : env.details pl.place_id with e | pd
  · exact h
  · simp only []
    split
    case isTrue hrc =>
      intro q hq
      rcases List.mem_append.mp hq with hqs | hqr
      · exact h q hqs
      · rcases List.mem_singleton.mp hqr with rfl
        simpa [simpleHospitalInfo] using hrc
    case isFalse => exact h

theorem simpleLoop_allPass (env : SimpleEnv) (mr : Nat) :
    ∀ (responses : List (Except ApiErr SearchResp)) (s : List SimpleRecord),
      AllPassSimple mr s →
      ∀ t, (simpleLoop env mr responses s).1 = some t → AllPassSimple mr t := by
  intro responses
  induction responses with
  | nil => intro s _ t ht; cases ht
  | cons resp rest ih =>
    intro s hs t ht
    rcases resp with e | page
    · cases ht
    · unfold simpleLoop at ht
      have hs' : AllPassSimple mr (page.results.foldl (processPlaceSimple env mr) s) :=
        foldl_preserves (processPlaceSimple_allPass env mr) page.results s hs
      rcases hp : page.next_page_token with _ | tk
      · rw [hp] at ht
        simp only [] at ht
        cases ht
        exact hs'
      · rw [hp] at ht
        simp only [] at ht
        exact ih _ hs' t ht

theorem storeInv_sort {mr : Nat} {l : List Record} (h : StoreInv mr l) :
    StoreInv mr (sortByDesc (fun r => r.review_count) l) := by
  have hp := sortByDesc_perm (fun r : Record => r.review_count) l
  constructor
  · have h1 : (l.map (fun r => r.place_id)).Nodup := h.1
    exact ((hp.map (fun r => r.place_id)).nodup_iff).mpr h1
  · intro r hr
    exact h.2 r (hp.mem_iff.mp hr)

theorem fetch_grid_storeInv (env : GridEnv) (mr rad : Nat) :
    StoreInv mr (fetch_hospitals_grid_search env mr rad) :=
  storeInv_sort (gridStore_storeInv env mr rad)

theorem fetch_text_storeInv (env : TextEnv) (mr : Nat) :
    StoreInv mr (fetch_hospitals_text_search env mr) :=
  storeInv_sort (textStore_storeInv env mr)

theorem fetch_api_allPass (env : SimpleEnv)
    (responses : List (Except ApiErr SearchResp)) (mr : Nat) :
    AllPassSimple mr (((fetch_eye_hospitals_from_api env responses mr).1).getD []) := by
  unfold fetch_eye_hospitals_from_api
  rcases hl : simpleLoop env mr responses [] with ⟨r, n⟩
  rcases r with _ | t
  · intro q hq; cases hq
  · have ht : AllPassSimple mr t := by
      refine simpleLoop_allPass env mr responses [] ?_ t ?_
      · intro q hq; cases hq
      · rw [hl]
    simp only []
    split
    · intro q hq; cases hq
    · intro q hq
      have hp := sortByDesc_perm (fun r : SimpleRecord => r.review_count) t
      exact ht q (hp.mem_iff.mp (by simpa using hq))

/-!
Pagination request counts.
-/

theorem gridLoop_requests_le (env : GridEnv) (mr rad z : Nat) (c : ℝ × ℝ)
    (kw : String) :
    ∀ (fuel pageNum : Nat) (token : Option String) (s : List Record),
      pageNum ≤ 3 →
      (gridLoop env mr rad z c kw fuel pageNum token s).2 ≤ 4 - pageNum := by
  intro fuel
  induction fuel with
  | zero => intro pageNum _ s hp; simp [gridLoop]
  | succ n ih =>
    intro pageNum token s hp
    unfold gridLoop
    rcases env.search c rad kw token with e | resp
    · show 1 ≤ 4 - pageNum
      omega
    · simp only []
      split
      · show 1 ≤ 4 - pageNum
        omega
      · rcases resp.next_page_token with _ | t
        · show 1 ≤ 4 - pageNum
          omega
        · simp only []
          split
          case isTrue h3 =>
            show 1 ≤ 4 - pageNum
            omega
          case isFalse h3 =>
            have := ih (pageNum + 1) (some t)
              (resp.results.foldl (processPlaceGrid env mr z kw) s) (by omega)
            show (gridLoop env mr rad z c kw n (pageNum + 1) (some t)
              (resp.results.foldl (processPlaceGrid env mr z kw) s)).2 + 1 ≤ 4 - pageNum
            omega

theorem simpleLoop_tokenPages_requests (env : SimpleEnv) (mr : Nat) :
    ∀ (n : Nat) (s : List SimpleRecord),
      (simpleLoop env mr (tokenPages n ++ [endPage]) s).2 = n + 1 := by
  intro n
  induction n with
  | zero => intro s; rfl
  | succ m ih =>
    intro s
    show (simpleLoop env mr (tokenPage :: (tokenPages m ++ [endPage])) s).2 = m + 1 + 1
    unfold simpleLoop tokenPage
    simp only [List.foldl_nil]
    rw [ih]

/-!
Deduplication id-set lemmas.
-/

theorem dedupAux_ids_mem (id : String) :
    ∀ (l : List Record) (seen : List String),
      (id ∈ (dedupAux seen l).map (fun r => r.place_id) ↔
        id ∈ l.map (fun r => r.place_id) ∧ id ∉ seen)
  | [], seen => by simp [dedupAux]
  | r :: rs, seen => by
    unfold dedupAux
    by_cases hc : seen.contains r.place_id
    · rw [if_pos hc]
      rw [dedupAux_ids_mem id rs seen]
      have hrs : r.place_id ∈ seen := by
        simpa using hc
      simp only [List.map_cons, List.mem_cons]
      constructor
      · rintro ⟨hm, hns⟩; exact ⟨Or.inr hm, hns⟩
      · rintro ⟨hm | hm, hns⟩
        · exact absurd (hm ▸ hrs) hns
        · exact ⟨hm, hns⟩
    · rw [if_neg hc]
      simp only [List.map_cons, List.mem_cons]
      rw [dedupAux_ids_mem id rs (r.place_id :: seen)]
      have hrs : r.place_id ∉ seen := by
        simpa using hc
      constructor
      · rintro (hm | ⟨hm, hns⟩)
        · exact ⟨Or.inl hm, hm ▸ hrs⟩
        · exact ⟨Or.inr hm, fun hx => hns (List.mem_cons_of_mem _ hx)⟩
      · rintro ⟨hm | hm, hns⟩
        · exact Or.inl hm
        · by_cases hid : id = r.place_id
          · exact Or.inl hid
          · exact Or.inr ⟨hm, by
              intro hx
              rcases List.mem_cons.mp hx with h1 | h2
              · exact hid h1
              · exact hns h2⟩

theorem dropDup_ids_mem (l : List Record) (id : String) :
    id ∈ (dropDupByPlaceId l).map (fun r => r.place_id) ↔
      id ∈ l.map (fun r => r.place_id) := by
  unfold dropDupByPlaceId
  rw [dedupAux_ids_mem id l []]
  simp

theorem dedupAux_subset :
    ∀ (l : List Record) (seen : List String) (r : Record),
      r ∈ dedupAux seen l → r ∈ l
  | [], _, _, h => by cases h
  | x :: xs, seen, r, h => by
    unfold dedupAux at h
    by_cases hc : seen.contains x.place_id
    · rw [if_pos hc] at h
      exact List.mem_cons_of_mem _ (dedupAux_subset xs seen r h)
    · rw [if_neg hc] at h
      rcases List.mem_cons.mp h with h1 | h2
      · exact h1 ▸ List.mem_cons_self _ _
      · exact List.mem_cons_of_mem _ (dedupAux_subset xs _ r h2)

/-!
Review-filter-only step lemmas (used to state that the filter guards every
insertion, independently of the id guard).
-/

theorem allPass_append {mr : Nat} {s : List Record} {r : Record}
    (h : AllPass mr s) (hrc : mr ≤ r.review_count) : AllPass mr (s ++ [r]) := by
  intro q hq
  rcases List.mem_append.mp hq with hqs | hqr
  · exact h q hqs
  · rcases List.mem_singleton.mp hqr with rfl
    exact hrc

theorem processPlaceGrid_allPass (env : GridEnv) (mr z : Nat) (kw : String)
    (s : List Record) (pl : RawPlace) (h : AllPass mr s) :
    AllPass mr (processPlaceGrid env mr z kw s pl) := by
  unfold processPlaceGrid
  split
  · exact h
  · rcases env.details pl.place_id with e | pd
    · exact h
    · simp only []
      split
      case isTrue hrc =>
        rcases pd.geometry with _ | g
        · exact h
        · exact allPass_append h (by simpa [gridHospitalInfo] using hrc)
      case isFalse => exact h

theorem textPostGeo_allPass (env : TextEnv) (mr : Nat) (s : List Record)
    (pid : String) (h : AllPass mr s) : AllPass mr (textPostGeo env mr s pid) := by
  unfold textPostGeo
  split
  · exact h
  · rcases env.details pid with e | pd
    · exact h
    · simp only []
      split
      case isTrue hrc =>
        rcases pd.geometry with _ | g
        · exact h
        · exact allPass_append h (by simpa [textHospitalInfo] using hrc)
      case isFalse => exact h

/-!
Properties of the haversine distance and the antipodal far point used to
exercise the 50 km validator.
-/

theorem hav_a_self (lat lon : ℝ) : hav_a lat lon lat lon = 0 := by
  unfold hav_a
  simp

theorem haversine_self (lat lon : ℝ) : haversine_distance lat lon lat lon = 0 := by
  unfold haversine_distance
  rw [hav_a_self]
  norm_num [atan2, Real.arctan_zero]

theorem hav_a_symm (lat1 lon1 lat2 lon2 : ℝ) :
    hav_a lat1 lon1 lat2 lon2 = hav_a lat2 lon2 lat1 lon1 := by
  unfold hav_a
  have h : ∀ x y : ℝ, Real.sin ((x - y) / 2) ^ 2 = Real.sin ((y - x) / 2) ^ 2 := by
    intro x y
    rw [show (x - y) / 2 = -((y - x) / 2) by ring, Real.sin_neg]
    ring
  rw [h (deg2rad lat2) (deg2rad lat1), h (deg2rad lon2) (deg2rad lon1)]
  ring

theorem haversine_symm (lat1 lon1 lat2 lon2 : ℝ) :
    haversine_distance lat1 lon1 lat2 lon2 = haversine_distance lat2 lon2 lat1 lon1 := by
  unfold haversine_distance
  rw [hav_a_symm lat1 lon1 lat2 lon2]

theorem hav_a_antipodal :
    hav_a 12.9716 77.5946 12.9716 257.5946 = Real.cos (deg2rad 12.9716) ^ 2 := by
  unfold hav_a
  have h1 : deg2rad 12.9716 - deg2rad 12.9716 = 0 := sub_self _
  have h2 : deg2rad 257.5946 - deg2rad 77.5946 = Real.pi := by
    unfold deg2rad
    have h : (257.5946 : ℝ) * Real.pi - 77.5946 * Real.pi = 180 * Real.pi := by
      ring_nf
    rw [div_sub_div_same, h]
    field_simp
  rw [h1, h2]
  rw [show (0:ℝ) / 2 = 0 by norm_num, Real.sin_zero]
  rw [show Real.pi / 2 = Real.pi / 2 from rfl, Real.sin_pi_div_two]
  ring

theorem antipodal_far :
    haversine_distance 12.9716 77.5946 12.9716 257.5946 > 50 := by
  have hπ := Real.pi_pos
  have hpi3 := Real.pi_gt_three
  have hx_pos : 0 < deg2rad 12.9716 := by
    unfold deg2rad
    positivity
  have hx_lt : deg2rad 12.9716 < Real.pi / 4 := by
    unfold deg2rad
    have h1 : (12.9716 : ℝ) / 180 < 1 / 4 := by norm_num
    calc (12.9716 : ℝ) * Real.pi / 180 = 12.9716 / 180 * Real.pi := by ring
    _ < 1 / 4 * Real.pi := mul_lt_mul_of_pos_right h1 hπ
    _ = Real.pi / 4 := by ring
  have hsin_pos : 0 < Real.sin (deg2rad 12.9716) :=
    Real.sin_pos_of_pos_of_lt_pi hx_pos (by linarith)
  have hcos_pos : 0 < Real.cos (deg2rad 12.9716) :=
    Real.cos_pos_of_mem_Ioo ⟨by linarith, by linarith⟩
  have hsc : Real.sin (deg2rad 12.9716) ≤ Real.cos (deg2rad 12.9716) := by
    rw [← Real.sin_pi_div_two_sub]
    exact le_of_lt (Real.strictMonoOn_sin ⟨by linarith, by linarith⟩
      ⟨by linarith, by linarith⟩ (by linarith))
  unfold haversine_distance
  rw [hav_a_antipodal]
  rw [Real.sqrt_sq hcos_pos.le]
  rw [show (1:ℝ) - Real.cos (deg2rad 12.9716) ^ 2 = Real.sin (deg2rad 12.9716) ^ 2 by
    nlinarith [Real.sin_sq_add_cos_sq (deg2rad 12.9716)]]
  rw [Real.sqrt_sq hsin_pos.le]
  rw [show atan2 (Real.cos (deg2rad 12.9716)) (Real.sin (deg2rad 12.9716)) =
      Real.arctan (Real.cos (deg2rad 12.9716) / Real.sin (deg2rad 12.9716)) from by
    unfold atan2
    rw [if_pos hsin_pos]]
  have harc : Real.pi / 4 ≤
      Real.arctan (Real.cos (deg2rad 12.9716) / Real.sin (deg2rad 12.9716)) := by
    rw [← Real.arctan_one]
    refine Real.arctan_strictMono.monotone ?_
    rw [le_div_iff₀ hsin_pos]
    linarith
  linarith

/-!
Combiner lemmas.
-/

theorem combine_empty_left (t : List Record) : combine_results [] t = t := by
  unfold combine_results
  by_cases ht : t.isEmpty
  · have h : t = [] := by simpa using ht
    subst h
    simp
  · simp [ht]

theorem combine_empty_right (g : List Record) : combine_results g [] = g := by
  unfold combine_results
  by_cases hg : g.isEmpty
  · have h : g = [] := by simpa using hg
    subst h
    simp
  · simp [hg]

theorem combine_ids (g t : List Record) (id : String) :
    id ∈ (combine_results g t).map (fun r => r.place_id) ↔
      id ∈ g.map (fun r => r.place_id) ∨ id ∈ t.map (fun r => r.place_id) := by
  by_cases hg : g.isEmpty
  · have h : g = [] := by simpa using hg
    subst h
    rw [combine_empty_left]
    simp
  · by_cases ht : t.isEmpty
    · have h : t = [] := by simpa using ht
      subst h
      rw [combine_empty_right]
      simp
    · unfold combine_results
      rw [if_neg (fun hc => hg hc.1), if_neg hg, if_neg ht]
      rw [List.Perm.mem_iff ((sortByDesc_perm (fun r : Record => r.review_count)
        (dropDupByPlaceId (g ++ t))).map (fun r => r.place_id))]
      rw [dropDup_ids_mem]
      simp

theorem fetch_api_chain (env : SimpleEnv)
    (responses : List (Except ApiErr SearchResp)) (mr : Nat) :
    List.Chain' (fun a b : SimpleRecord => b.review_count ≤ a.review_count)
      (((fetch_eye_hospitals_from_api env responses mr).1).getD []) := by
  unfold fetch_eye_hospitals_from_api
  rcases hl : simpleLoop env mr responses [] with ⟨r, n⟩
  rcases r with _ | t
  · exact List.chain'_nil
  · simp only []
    split
    · exact List.chain'_nil
    · simpa using sortByDesc_chain (fun r : SimpleRecord => r.review_count) t

theorem combine_fetch_chain (envG : GridEnv) (envT : TextEnv) (mrg mrt rad : Nat) :
    List.Chain' (fun a b : Record => b.review_count ≤ a.review_count)
      (combine_results (fetch_hospitals_grid_search envG mrg rad)
        (fetch_hospitals_text_search envT mrt)) := by
  unfold combine_results
  split
  · exact List.chain'_nil
  · split
    · exact sortByDesc_chain (fun r : Record => r.review_count) (textStore envT mrt)
    · split
      · exact sortByDesc_chain (fun r : Record => r.review_count) (gridStore envG mrg rad)
      · exact sortByDesc_chain (fun r : Record => r.review_count) _

/-!
The claims.
-/

/-- C1: each fetch pipeline of the comprehensive script emits at most one
record per place identifier (the sorted outputs have pairwise distinct
ids), and the record retained for an identifier is the first one
observed — once an id is in the keyed store, offering a later sighting of
the same id leaves the store, hence the stored attributes, unchanged, in
both the grid path and the text path. -/
theorem dedup_first_wins :
    (∀ (env : GridEnv) (mr rad : Nat),
      IdsNodup (fetch_hospitals_grid_search env mr rad))
    ∧ (∀ (env : TextEnv) (mr : Nat),
      IdsNodup (fetch_hospitals_text_search env mr))
    ∧ (∀ (env : GridEnv) (mr z : Nat) (kw : String) (s : List Record) (pl : RawPlace),
      hasId s pl.place_id = true → processPlaceGrid env mr z kw s pl = s)
    ∧ (∀ (env : TextEnv) (mr : Nat) (s : List Record) (pid : String),
      hasId s pid = true → textPostGeo env mr s pid = s) := by
  refine ⟨?_, ?_, ?_, ?_⟩
  · intro env mr rad
    exact (fetch_grid_storeInv env mr rad).1
  · intro env mr
    exact (fetch_text_storeInv env mr).1
  · intro env mr z kw s pl h
    unfold processPlaceGrid
    rw [if_pos h]
  · intro env mr s pid h
    unfold textPostGeo
    rw [if_pos h]

/-- C1 witness: with the store already holding the record for id `"A"`
(500 reviews, rating 4.5), offering id `"A"` again against an environment
whose details endpoint now reports different attributes (999 reviews,
rating 1.0) leaves the store unchanged, in both paths. -/
theorem dedup_first_wins_witness :
    processPlaceGrid envModified 100 1 "eye hospital" [gridRowA]
      { place_id := "A", geometry := none } = [gridRowA]
    ∧ textPostGeo envModifiedText 100 [gridRowA] "A" = [gridRowA] :=
  ⟨dedup_first_wins.2.2.1 envModified 100 1 "eye hospital" [gridRowA]
      { place_id := "A", geometry := none } rfl,
   dedup_first_wins.2.2.2 envModifiedText 100 [gridRowA] "A" rfl⟩

/-- C2: every record of the terminal output of the grid pipeline, the text
pipeline and the simple pipeline has at least `min_reviews` reviews; the
filter guards each insertion step (a store in which every record passes
stays that way through any item-processing step), and the materialisation
sort is a permutation, so nothing is filtered after aggregation. -/
theorem review_filter_before_aggregation :
    (∀ (env : GridEnv) (mr rad : Nat),
      (fetch_hospitals_grid_search env mr rad).all
        (fun r => decide (mr ≤ r.review_count)) = true)
    ∧ (∀ (env : TextEnv) (mr : Nat),
      (fetch_hospitals_text_search env mr).all
        (fun r => decide (mr ≤ r.review_count)) = true)
    ∧ (∀ (env : SimpleEnv) (rs : List (Except ApiErr SearchResp)) (mr : Nat),
      (((fetch_eye_hospitals_from_api env rs mr).1).getD []).all
        (fun r => decide (mr ≤ r.review_count)) = true)
    ∧ (∀ (env : GridEnv) (mr z : Nat) (kw : String) (s : List Record) (pl : RawPlace),
      AllPass mr s → AllPass mr (processPlaceGrid env mr z kw s pl))
    ∧ (∀ (env : TextEnv) (mr : Nat) (s : List Record) (pid : String),
      AllPass mr s → AllPass mr (textPostGeo env mr s pid))
    ∧ (∀ (env : SimpleEnv) (mr : Nat) (s : List SimpleRecord) (pl : RawPlace),
      AllPassSimple mr s → AllPassSimple mr (processPlaceSimple env mr s pl))
    ∧ (∀ (l : List Record),
      List.Perm (sortByDesc (fun r => r.review_count) l) l) := by
  refine ⟨?_, ?_, ?_, ?_, ?_, ?_, ?_⟩
  · intro env mr rad
    rw [List.all_eq_true]
    intro r hr
    exact decide_eq_true ((fetch_grid_storeInv env mr rad).2 r hr)
  · intro env mr
    rw [List.all_eq_true]
    intro r hr
    exact decide_eq_true ((fetch_text_storeInv env mr).2 r hr)
  · intro env rs mr
    rw [List.all_eq_true]
    intro r hr
    exact decide_eq_true (fetch_api_allPass env rs mr r hr)
  · exact fun env mr z kw s pl h => processPlaceGrid_allPass env mr z kw s pl h
  · exact fun env mr s pid h => textPostGeo_allPass env mr s pid h
  · exact fun env mr s pl h => processPlaceSimple_allPass env mr s pl h
  · exact fun l => sortByDesc_perm (fun r => r.review_count) l

/-- C2 witness: starting from the empty store (in which every record
trivially passes), one grid item-processing step keeps the filter
invariant. -/
theorem review_filter_before_aggregation_witness :
    AllPass 100 (processPlaceGrid envModified 100 1 "eye hospital" []
      { place_id := "A", geometry := none }) :=
  review_filter_before_aggregation.2.2.2.1 envModified 100 1 "eye hospital" []
    { place_id := "A", geometry := none } (fun r hr => absurd hr (List.not_mem_nil r))

/-- C3: the non-increasing half holds — every terminal output of the grid
pipeline, the text pipeline, the simple pipeline and the combiner (fed the
two pipeline outputs) is sorted by review count non-increasing on adjacent
pairs.  The stability half is a code bug relative to the spec: the scripts
call `sort_values('review_count', ascending=False)` with the default
`kind='quicksort'`, whose documented contract (`IsSortValuesDescResult`)
is satisfied by both orders of two records sharing a review count, as the
last conjuncts show at a concrete tied store — so the program does not
ensure that ties keep insertion order; that needs `kind='stable'` or
`kind='mergesort'`, which the code does not pass. -/
theorem outputs_sorted_desc_ties_undetermined :
    (∀ (env : GridEnv) (mr rad : Nat),
      List.Chain' (fun a b : Record => b.review_count ≤ a.review_count)
        (fetch_hospitals_grid_search env mr rad))
    ∧ (∀ (env : TextEnv) (mr : Nat),
      List.Chain' (fun a b : Record => b.review_count ≤ a.review_count)
        (fetch_hospitals_text_search env mr))
    ∧ (∀ (env : SimpleEnv) (rs : List (Except ApiErr SearchResp)) (mr : Nat),
      List.Chain' (fun a b : SimpleRecord => b.review_count ≤ a.review_count)
        (((fetch_eye_hospitals_from_api env rs mr).1).getD []))
    ∧ (∀ (envG : GridEnv) (envT : TextEnv) (mrg mrt rad : Nat),
      List.Chain' (fun a b : Record => b.review_count ≤ a.review_count)
        (combine_results (fetch_hospitals_grid_search envG mrg rad)
          (fetch_hospitals_text_search envT mrt)))
    ∧ IsSortValuesDescResult [tieRowFirst, tieRowSecond] [tieRowFirst, tieRowSecond]
    ∧ IsSortValuesDescResult [tieRowFirst, tieRowSecond] [tieRowSecond, tieRowFirst]
    ∧ ([tieRowSecond, tieRowFirst].map (fun r => r.place_id) ==
        [tieRowFirst, tieRowSecond].map (fun r => r.place_id)) = false := by
  refine ⟨?_, ?_, ?_, ?_, ⟨?_, ?_⟩, ⟨?_, ?_⟩, ?_⟩
  · intro env mr rad
    exact sortByDesc_chain (fun r : Record => r.review_count) (gridStore env mr rad)
  · intro env mr
    exact sortByDesc_chain (fun r : Record => r.review_count) (textStore env mr)
  · exact fetch_api_chain
  · exact combine_fetch_chain
  · exact List.Perm.refl _
  · exact List.chain'_cons.mpr ⟨Nat.le_refl 100, List.chain'_singleton _⟩
  · exact List.Perm.swap tieRowFirst tieRowSecond []
  · exact List.chain'_cons.mpr ⟨Nat.le_refl 100, List.chain'_singleton _⟩
  · rfl

/-- C4 counterexample: `combine_results` applies no review filter, so
merging the grid frame `[A with 500 reviews]` with the text frame
`[A with 999 reviews, B with 50 reviews]` yields `[A(500), B(50)]` — the
grid copy of `A` does win, but `B` (below the 100-review threshold) does
appear in the final output, contradicting the claimed result `[A(500)]`. -/
theorem combine_below_threshold_cex :
    combine_results [gridRowA] [textRowA, textRowB] = [gridRowA, textRowB]
    ∧ combine_results [gridRowA] [textRowA, textRowB] ≠ [gridRowA] := by
  constructor
  · rfl
  · intro h
    rw [show combine_results [gridRowA] [textRowA, textRowB] =
      [gridRowA, textRowB] from rfl] at h
    simp at h

/-- C4 amended: the combiner merges by place id with first-seen wins in
grid-before-text priority and re-sorts descending, but performs no review
filtering of its own: on the scenario input it returns
`[A(500, grid copy), B(50)]`.  `B` can be absent from an end-to-end run
only because each strategy filters upstream — the text pipeline output
never contains a record below its `min_reviews`. -/
theorem combine_grid_priority_amended :
    combine_results [gridRowA] [textRowA, textRowB] = [gridRowA, textRowB]
    ∧ (∀ (env : TextEnv) (mr : Nat),
      (fetch_hospitals_text_search env mr).all
        (fun r => decide (mr ≤ r.review_count)) = true) := by
  constructor
  · rfl
  · intro env mr
    rw [List.all_eq_true]
    intro r hr
    exact decide_eq_true ((fetch_text_storeInv env mr).2 r hr)

/-- C5 counterexample: the simple-pipeline fetcher has no maximum-pages
cap: fed a stream of five consecutive token-carrying pages before the
final tokenless one, it issues 6 page requests, exceeding the claimed
2-3 page cap of the observed policy. -/
theorem pagination_uncapped_cex :
    (fetch_eye_hospitals_from_api envSimpleFail (tokenPages 5 ++ [endPage]) 100).2 = 6
    ∧ 3 < 6 := by
  constructor
  · rfl
  · norm_num

/-- C5 amended: the grid fetcher follows a continuation token only while
one is present and `page_num < 3`, so it issues at most 3 page requests per
query regardless of the response stream; on the scenario with tokens on the
first two pages and none on the third, it issues exactly 3 requests and
stores the 3 pages of results (`p1`, `p2`, `p3`), and the simple fetcher
does the same on that scenario; but the simple fetcher has no page cap — on
`n` token-carrying pages it issues `n + 1` requests for every `n`. -/
theorem pagination_amended :
    (∀ (env : GridEnv) (mr rad z : Nat) (c : ℝ × ℝ) (kw : String)
      (fuel : Nat) (token : Option String) (s : List Record),
      (gridLoop env mr rad z c kw fuel 1 token s).2 ≤ 3)
    ∧ ((gridLoop envThreePages 100 15000 1 BANGALORE_CENTER "eye hospital"
          3 1 none []).2 = 3
      ∧ ((gridLoop envThreePages 100 15000 1 BANGALORE_CENTER "eye hospital"
          3 1 none []).1).map (fun r => r.place_id) = ["p1", "p2", "p3"])
    ∧ ((fetch_eye_hospitals_from_api envSimpleOk threePageScript 100).2 = 3
      ∧ (((fetch_eye_hospitals_from_api envSimpleOk threePageScript 100).1).getD []).map
          (fun r => r.place_id) = ["p1", "p2", "p3"])
    ∧ (∀ (env : SimpleEnv) (mr n : Nat) (s : List SimpleRecord),
      (simpleLoop env mr (tokenPages n ++ [endPage]) s).2 = n + 1) := by
  refine ⟨?_, ⟨?_, ?_⟩, ⟨?_, ?_⟩, ?_⟩
  · intro env mr rad z c kw fuel token s
    have h := gridLoop_requests_le env mr rad z c kw fuel 1 token s (by omega)
    omega
  · rfl
  · rfl
  · rfl
  · rfl
  · intro env mr n s
    exact simpleLoop_tokenPages_requests env mr n s

/-- C6: an external-call failure aborts only the query descriptor it
occurred in.  A search failure on the first page leaves the store
untouched for that keyword, a query whose first page is empty contributes
zero items, a keyword whose search raises can be deleted from the keyword
fold without changing the result (the run continues with the next
keyword), the same holds for the text path, and a details failure skips
just that item, in the grid and simple paths alike. -/
theorem failure_skips_query :
    (∀ (env : GridEnv) (mr rad z : Nat) (c : ℝ × ℝ) (s : List Record)
      (kw : String) (e : ApiErr), env.search c rad kw none = Except.error e →
      processKeywordGrid env mr rad z c s kw = s)
    ∧ (∀ (env : GridEnv) (mr rad z : Nat) (c : ℝ × ℝ) (s : List Record)
      (kw : String) (resp : SearchResp), env.search c rad kw none = Except.ok resp →
      resp.results = [] → processKeywordGrid env mr rad z c s kw = s)
    ∧ (∀ (env : GridEnv) (mr rad z : Nat) (c : ℝ × ℝ) (s : List Record)
      (kbad : String) (ks : List String) (e : ApiErr),
      env.search c rad kbad none = Except.error e →
      processKeywordsGrid env mr rad z c (kbad :: ks) s =
        processKeywordsGrid env mr rad z c ks s)
    ∧ (∀ (env : TextEnv) (mr : Nat) (s : List Record) (kw : String) (e : ApiErr),
      env.search (kw ++ " Bangalore") none = Except.error e →
      processKeywordText env mr s kw = s)
    ∧ (∀ (env : GridEnv) (mr z : Nat) (kw : String) (s : List Record)
      (pl : RawPlace) (e : ApiErr), env.details pl.place_id = Except.error e →
      processPlaceGrid env mr z kw s pl = s)
    ∧ (∀ (env : SimpleEnv) (mr : Nat) (s : List SimpleRecord) (pl : RawPlace)
      (e : ApiErr), env.details pl.place_id = Except.error e →
      processPlaceSimple env mr s pl = s) := by
  have hkw : ∀ (env : GridEnv) (mr rad z : Nat) (c : ℝ × ℝ) (s : List Record)
      (kw : String) (e : ApiErr), env.search c rad kw none = Except.error e →
      processKeywordGrid env mr rad z c s kw = s := by
    intro env mr rad z c s kw e h
    unfold processKeywordGrid gridLoop
    rw [h]
  refine ⟨hkw, ?_, ?_, ?_, ?_, ?_⟩
  · intro env mr rad z c s kw resp h hres
    unfold processKeywordGrid gridLoop
    rw [h]
    simp [hres]
  · intro env mr rad z c s kbad ks e h
    unfold processKeywordsGrid
    rw [List.foldl_cons, hkw env mr rad z c s kbad e h]
  · intro env mr s kw e h
    unfold processKeywordText textLoop
    rw [h]
  · intro env mr z kw s pl e h
    unfold processPlaceGrid
    split
    · rfl
    · rw [h]
  · intro env mr s pl e h
    unfold processPlaceSimple
    rw [h]

/-- C6 witness: against an environment whose every search call raises with
a quota rejection, one keyword query leaves the empty store empty; against
the three-page environment, which raises exactly for the keyword
`"cataract hospital"`, deleting that keyword from a keyword fold changes
nothing; and a failing details call leaves a store with one record
unchanged. -/
theorem failure_skips_query_witness :
    processKeywordGrid envAllFail 100 15000 1 BANGALORE_CENTER [] "eye hospital" = []
    ∧ processKeywordsGrid envThreePages 100 15000 1 BANGALORE_CENTER
        ["cataract hospital", "eye clinic"] [] =
      processKeywordsGrid envThreePages 100 15000 1 BANGALORE_CENTER ["eye clinic"] []
    ∧ processPlaceGrid envAllFail 100 1 "eye hospital" [gridRowA]
        { place_id := "B", geometry := none } = [gridRowA] :=
  ⟨failure_skips_query.1 envAllFail 100 15000 1 BANGALORE_CENTER [] "eye hospital"
      ApiErr.quota rfl,
   failure_skips_query.2.2.1 envThreePages 100 15000 1 BANGALORE_CENTER []
      "cataract hospital" ["eye clinic"] ApiErr.quota rfl,
   failure_skips_query.2.2.2.2.1 envAllFail 100 1 "eye hospital" [gridRowA]
      { place_id := "B", geometry := none } ApiErr.quota rfl⟩

/-- C7 counterexample: the simple pipeline stores a record even when the
details response has no geometry — fed a details object without geometry
(150 reviews), it appends a record whose latitude and longitude are both
`none`, and the absent rating is likewise stored as `none` rather than a
not-available sentinel. -/
theorem simple_missing_geometry_cex :
    processPlaceSimple envSimpleNoGeo 100 [] { place_id := "x", geometry := none } =
      [simpleHospitalInfo "x" detailsNoGeo]
    ∧ (simpleHospitalInfo "x" detailsNoGeo).latitude = none
    ∧ (simpleHospitalInfo "x" detailsNoGeo).longitude = none
    ∧ (simpleHospitalInfo "x" detailsNoGeo).rating = none :=
  ⟨rfl, rfl, rfl, rfl⟩

/-- C7 amended: in the comprehensive script both enrichers reject an item
whose details response lacks geometry (the `KeyError` is caught and the
item skipped), and absent string fields map to the sentinel `"N/A"`; but
the simple pipeline stores such an item with `latitude = none` and
`longitude = none`, and an absent rating is stored as `none` in all
paths. -/
theorem enricher_geometry_amended :
    (∀ (env : GridEnv) (mr z : Nat) (kw : String) (s : List Record)
      (pl : RawPlace) (pd : PlaceDetails),
      env.details pl.place_id = Except.ok pd → pd.geometry = none →
      processPlaceGrid env mr z kw s pl = s)
    ∧ (∀ (env : TextEnv) (mr : Nat) (s : List Record) (pid : String)
      (pd : PlaceDetails),
      env.details pid = Except.ok pd → pd.geometry = none →
      textPostGeo env mr s pid = s)
    ∧ (∀ (env : SimpleEnv) (mr : Nat) (s : List SimpleRecord) (pl : RawPlace)
      (pd : PlaceDetails),
      env.details pl.place_id = Except.ok pd → pd.geometry = none →
      mr ≤ pd.user_ratings_total.getD 0 →
      processPlaceSimple env mr s pl = s ++ [simpleHospitalInfo pl.place_id pd]
        ∧ (simpleHospitalInfo pl.place_id pd).latitude = none
        ∧ (simpleHospitalInfo pl.place_id pd).longitude = none)
    ∧ (∀ (z : Nat) (kw pid : String) (pd : PlaceDetails) (g : Geo),
      pd.name = none → pd.formatted_address = none → pd.website = none →
      pd.formatted_phone_number = none →
      (gridHospitalInfo z kw pid pd g).name = "N/A"
        ∧ (gridHospitalInfo z kw pid pd g).address = "N/A"
        ∧ (gridHospitalInfo z kw pid pd g).website = "N/A"
        ∧ (gridHospitalInfo z kw pid pd g).phone = "N/A"
        ∧ (gridHospitalInfo z kw pid pd g).rating = pd.rating) := by
  refine ⟨?_, ?_, ?_, ?_⟩
  · intro env mr z kw s pl pd hd hg
    unfold processPlaceGrid
    split
    · rfl
    · rw [hd]
      simp only []
      split
      · rw [hg]
      · rfl
  · intro env mr s pid pd hd hg
    unfold textPostGeo
    split
    · rfl
    · rw [hd]
      simp only []
      split
      · rw [hg]
      · rfl
  · intro env mr s pl pd hd hg hrc
    refine ⟨?_, ?_, ?_⟩
    · unfold processPlaceSimple
      rw [hd]
      simp only []
      rw [if_pos hrc]
    · simp [simpleHospitalInfo, hg]
    · simp [simpleHospitalInfo, hg]
  · intro z kw pid pd g h1 h2 h3 h4
    exact ⟨by simp [gridHospitalInfo, h1], by simp [gridHospitalInfo, h2],
      by simp [gridHospitalInfo, h3], by simp [gridHospitalInfo, h4], rfl⟩

/-- C7 amended witness: with a details endpoint serving a geometry-less
response, the grid enricher rejects the item (empty store stays empty),
while the simple enricher stores it with missing coordinates. -/
theorem enricher_geometry_amended_witness :
    processPlaceGrid envGridNoGeo 100 1 "eye hospital" []
      { place_id := "x", geometry := none } = []
    ∧ processPlaceSimple envSimpleNoGeo 100 []
        { place_id := "x", geometry := none } =
      [] ++ [simpleHospitalInfo "x" detailsNoGeo] :=
  ⟨enricher_geometry_amended.1 envGridNoGeo 100 1 "eye hospital" []
      { place_id := "x", geometry := none } detailsNoGeo rfl rfl,
   (enricher_geometry_amended.2.2.1 envSimpleNoGeo 100 []
      { place_id := "x", geometry := none } detailsNoGeo rfl rfl
      (by norm_num [detailsNoGeo])).1⟩

/-- C8: the haversine distance satisfies `distance(p, p) = 0` and
`distance(A, B) = distance(B, A)`; and the text-search path drops a
candidate exactly when its computed distance from the Bangalore center
exceeds 50 km — above 50 the item is rejected with the store unchanged,
at or below 50 processing continues past the validator. -/
theorem haversine_geo_validator :
    (∀ lat lon : ℝ, haversine_distance lat lon lat lon = 0)
    ∧ (∀ lat1 lon1 lat2 lon2 : ℝ,
      haversine_distance lat1 lon1 lat2 lon2 = haversine_distance lat2 lon2 lat1 lon1)
    ∧ (∀ (env : TextEnv) (mr : Nat) (s : List Record) (pl : RawPlace) (g : Geo),
      pl.geometry = some g →
      haversine_distance BANGALORE_CENTER.1 BANGALORE_CENTER.2 g.lat g.lng > 50 →
      processPlaceText env mr s pl = s)
    ∧ (∀ (env : TextEnv) (mr : Nat) (s : List Record) (pl : RawPlace) (g : Geo),
      pl.geometry = some g →
      ¬ haversine_distance BANGALORE_CENTER.1 BANGALORE_CENTER.2 g.lat g.lng > 50 →
      processPlaceText env mr s pl = textPostGeo env mr s pl.place_id) := by
  refine ⟨haversine_self, haversine_symm, ?_, ?_⟩
  · intro env mr s pl g hg hdist
    unfold processPlaceText
    rw [hg]
    simp only []
    rw [if_pos hdist]
  · intro env mr s pl g hg hdist
    unfold processPlaceText
    rw [hg]
    simp only []
    rw [if_neg hdist]

/-- C8 witness: a candidate at the antipodal point (more than 50 km away,
in fact thousands of kilometers) is rejected by the validator, while a
candidate at the city center itself (distance 0, hence at most 50 km)
passes the validator into the rest of the processing. -/
theorem haversine_geo_validator_witness :
    processPlaceText envModifiedText 100 [] placeAntipodal = []
    ∧ processPlaceText envModifiedText 100 [] placeAtCenter =
        textPostGeo envModifiedText 100 [] "center" := by
  constructor
  · exact haversine_geo_validator.2.2.1 envModifiedText 100 [] placeAntipodal
      { lat := 12.9716, lng := 257.5946 } rfl antipodal_far
  · refine haversine_geo_validator.2.2.2 envModifiedText 100 [] placeAtCenter
      { lat := 12.9716, lng := 77.5946 } rfl ?_
    show ¬ haversine_distance 12.9716 77.5946 12.9716 77.5946 > 50
    rw [haversine_geo_validator.1 12.9716 77.5946]
    norm_num

/-- C9 counterexample: in the comprehensive script a run in which both
strategies produce nothing terminates with no output file — there is no
sample-data fallback there, contradicting the claim that every run that
produces no results falls back to the bundled dataset. -/
theorem comprehensive_no_fallback_cex :
    comprehensiveMainResult [] [] = none := rfl

/-- C9 amended: only `fetch_eye_hospitals.py` has the fallback: whenever
the API fetch returns `None`, `get_eye_hospitals` returns the bundled
sample dataset filtered by `min_reviews` and sorted descending, and at the
default threshold of 100 its caller always receives a nonempty dataset;
the comprehensive script, by contrast, writes nothing when both strategy
frames are empty. -/
theorem sample_fallback_amended :
    (∀ (env : SimpleEnv) (rs : List (Except ApiErr SearchResp)) (us : Bool),
      0 < (get_eye_hospitals env rs 100 us).length)
    ∧ (∀ (env : SimpleEnv) (rs : List (Except ApiErr SearchResp)) (mr : Nat)
      (us : Bool), (fetch_eye_hospitals_from_api env rs mr).1 = none →
      get_eye_hospitals env rs mr us = sampleFallback mr)
    ∧ comprehensiveMainResult [] [] = none := by
  have hsample : 0 < (sampleFallback 100).length := by decide
  refine ⟨?_, ?_, rfl⟩
  · intro env rs us
    unfold get_eye_hospitals
    by_cases hu : us = true
    · rw [if_pos hu]
      exact hsample
    · rw [if_neg hu]
      rcases hf : (fetch_eye_hospitals_from_api env rs 100).1 with _ | df
      · exact hsample
      · simp only []
        split
        · next h => exact h
        · exact hsample
  · intro env rs mr us h
    unfold get_eye_hospitals
    by_cases hu : us = true
    · rw [if_pos hu]
    · rw [if_neg hu, h]

/-- C9 amended witness: a response script whose first call raises makes
the API fetch return `None`, and `get_eye_hospitals` then returns the
sample fallback. -/
theorem sample_fallback_amended_witness :
    get_eye_hospitals envSimpleFail [Except.error ApiErr.network] 100 false =
      sampleFallback 100 :=
  sample_fallback_amended.2.1 envSimpleFail [Except.error ApiErr.network] 100 false rfl

/-- C10: the place-id set of the combiner output is exactly the union of
the id sets of its two inputs — deduplication never drops an id present in
only one input — and combining with one empty input returns the other
input unchanged. -/
theorem combine_id_union :
    (∀ (g t : List Record) (id : String),
      id ∈ (combine_results g t).map (fun r => r.place_id) ↔
        id ∈ g.map (fun r => r.place_id) ∨ id ∈ t.map (fun r => r.place_id))
    ∧ (∀ t : List Record, combine_results [] t = t)
    ∧ (∀ g : List Record, combine_results g [] = g) :=
  ⟨combine_ids, combine_empty_left, combine_empty_right⟩

end Blr
